import Mathlib

/-!
Verification of the Concord web client's Client State Engine (chat store,
UI intent store, and command emission) against its specification.

The definitions below are a shallow embedding of `web/src/stores/chatStore.ts`,
`web/src/stores/uiStore.ts` and the types in `web/src/api/types.ts`.
JavaScript objects used as string-keyed dictionaries are modelled as
association lists (`SMap`), JS `undefined`/`null` as `Option`, and JS numbers
as `Int`.  A second, identity-instrumented model (`TRef`, `ChatStateI`)
tracks JavaScript object identity for the claims about referential
stability of containers.
-/

namespace Concord

/-- String-keyed dictionary, modelling a JS object used as a map.
Keys are unique in well-formed values; insertion preserves key order the
way JS property assignment does. -/
abbrev SMap (α : Type) : Type := List (String × α)

namespace SMap

/-- The empty dictionary. -/
def empty {α : Type} : SMap α := []

/-- `m[k]` read: first binding for `k`, if any. -/
def get? {α : Type} (m : SMap α) (k : String) : Option α :=
  match m with
  | [] => none
  | (k', v) :: rest => if k' = k then some v else get? rest k

/-- `m[k] = v` write: replace the binding in place, else append (JS
property assignment keeps the position of an existing key and appends a
new one). -/
def set {α : Type} (m : SMap α) (k : String) (v : α) : SMap α :=
  match m with
  | [] => [(k, v)]
  | (k', v') :: rest => if k' = k then (k, v) :: rest else (k', v') :: set rest k v

/-- `delete m[k]`: drop the binding for `k`, keeping the others in order. -/
def del {α : Type} (m : SMap α) (k : String) : SMap α :=
  match m with
  | [] => []
  | (k', v) :: rest => if k' = k then del rest k else (k', v) :: del rest k

/-- Map a function over every value (a JS `for (const k in m)` update loop). -/
def mapVals {α : Type} (f : α → α) (m : SMap α) : SMap α :=
  m.map (fun p => (p.1, f p.2))

theorem get?_set_self {α : Type} (m : SMap α) (k : String) (v : α) :
    get? (set m k v) k = some v := by
  induction m with
  | nil => simp [get?, set]
  | cons hd tl ih =>
    by_cases h : hd.1 = k
    · simp [get?, set, h]
    · simp [get?, set, h, ih]

theorem get?_set_other {α : Type} (m : SMap α) (k k' : String) (v : α) (h : k' ≠ k) :
    get? (set m k v) k' = get? m k' := by
  induction m with
  | nil => simp [get?, set, Ne.symm h]
  | cons hd tl ih =>
    by_cases hk : hd.1 = k
    · subst hk
      simp [get?, set, Ne.symm h]
    · simp only [set, if_neg hk, get?]
      by_cases hk' : hd.1 = k'
      · simp [hk']
      · simp [hk', ih]

theorem get?_del_self {α : Type} (m : SMap α) (k : String) :
    get? (del m k) k = none := by
  induction m with
  | nil => simp [get?, del]
  | cons hd tl ih =>
    by_cases h : hd.1 = k
    · simpa [del, h] using ih
    · simpa [del, h, get?] using ih

theorem get?_del_other {α : Type} (m : SMap α) (k k' : String) (h : k' ≠ k) :
    get? (del m k) k' = get? m k' := by
  induction m with
  | nil => simp [get?, del]
  | cons hd tl ih =>
    by_cases hk : hd.1 = k
    · subst hk
      have h2 : hd.1 ≠ k' := Ne.symm h
      simpa [del, get?, h2] using ih
    · by_cases hk' : hd.1 = k'
      · subst hk'
        simp [del, get?, hk, h]
      · simpa [del, get?, hk, hk'] using ih

/-- Membership in the dictionary after a `set`: either the new binding or an
old binding at a different key. -/
theorem mem_set {α : Type} (m : SMap α) (k : String) (v : α) (p : String × α)
    (hp : p ∈ set m k v) : p = (k, v) ∨ p ∈ m := by
  induction m with
  | nil => simpa [set] using hp
  | cons hd tl ih =>
    by_cases h : hd.1 = k
    · simp only [set, if_pos h] at hp
      rcases List.mem_cons.mp hp with h1 | h2
      · exact Or.inl h1
      · exact Or.inr (List.mem_cons_of_mem _ h2)
    · simp only [set, if_neg h] at hp
      rcases List.mem_cons.mp hp with h1 | h2
      · exact Or.inr (h1 ▸ List.mem_cons_self _ _)
      · rcases ih h2 with h3 | h4
        · exact Or.inl h3
        · exact Or.inr (List.mem_cons_of_mem _ h4)

theorem mem_del {α : Type} (m : SMap α) (k : String) (p : String × α)
    (hp : p ∈ del m k) : p ∈ m := by
  induction m with
  | nil => simp [del] at hp
  | cons hd tl ih =>
    by_cases h : hd.1 = k
    · simp only [del, if_pos h] at hp
      exact List.mem_cons_of_mem _ (ih hp)
    · simp only [del, if_neg h] at hp
      rcases List.mem_cons.mp hp with h1 | h2
      · exact h1 ▸ List.mem_cons_self _ _
      · exact List.mem_cons_of_mem _ (ih h2)

end SMap

/-! ## Wire data types (web/src/api/types.ts) -/

/-- Composite key for channel-scoped data: `server_id ++ ":" ++ channel`. -/
def channelKey (serverId channel : String) : String :=
  serverId ++ ":" ++ channel

structure ServerInfo where
  id : String
  name : String
  icon_url : Option String := none
  member_count : Int
  role : Option String := none
deriving DecidableEq, Repr

structure ChannelInfo where
  id : String
  server_id : String
  name : String
  topic : String
  member_count : Int
  category_id : Option String := none
  position : Int
  is_private : Bool
  channel_type : String
  thread_parent_message_id : Option String := none
  archived : Bool
  slowmode_seconds : Int
  is_nsfw : Bool
deriving DecidableEq, Repr

structure MemberInfo where
  nickname : String
  avatar_url : Option String := none
  status : Option String := none
  custom_status : Option String := none
  status_emoji : Option String := none
  user_id : Option String := none
deriving DecidableEq, Repr

structure ReplyInfo where
  id : String
  from_ : String
  content_preview : String
deriving DecidableEq, Repr

structure ReactionGroup where
  emoji : String
  count : Int
  user_ids : List String
deriving DecidableEq, Repr

structure AttachmentInfo where
  id : String
  filename : String
  content_type : String
  file_size : Int
  url : String
deriving DecidableEq, Repr

structure EmbedInfo where
  url : String
  title : Option String := none
  description : Option String := none
  image_url : Option String := none
  site_name : Option String := none
deriving DecidableEq, Repr

structure HistoryMessage where
  id : String
  from_ : String
  content : String
  timestamp : String
  edited_at : Option String := none
  reply_to : Option ReplyInfo := none
  reactions : Option (List ReactionGroup) := none
  attachments : Option (List AttachmentInfo) := none
  embeds : Option (List EmbedInfo) := none
deriving DecidableEq, Repr

structure UnreadCount where
  channel_name : String
  count : Int
deriving DecidableEq, Repr

structure RoleInfo where
  id : String
  server_id : String
  name : String
  color : Option String := none
  icon_url : Option String := none
  position : Int
  permissions : Int
  is_default : Bool
deriving DecidableEq, Repr

structure CategoryInfo where
  id : String
  server_id : String
  name : String
  position : Int
deriving DecidableEq, Repr

structure PresenceInfo where
  user_id : String
  nickname : String
  avatar_url : Option String := none
  status : String
  custom_status : Option String := none
  status_emoji : Option String := none
deriving DecidableEq, Repr

structure UserProfileInfo where
  user_id : String
  username : String
  avatar_url : Option String := none
  bio : Option String := none
  pronouns : Option String := none
  banner_url : Option String := none
  created_at : String
deriving DecidableEq, Repr

structure SearchResultMessage where
  id : String
  from_ : String
  content : String
  timestamp : String
  channel_id : String
  channel_name : String
  edited_at : Option String := none
deriving DecidableEq, Repr

structure PinnedMessageInfo where
  id : String
  message_id : String
  channel_id : String
  pinned_by : String
  pinned_at : String
  from_ : String
  content : String
  timestamp : String
deriving DecidableEq, Repr

structure ThreadInfo where
  id : String
  name : String
  channel_type : String
  parent_message_id : Option String := none
  archived : Bool
  auto_archive_minutes : Int
  message_count : Int
  created_at : String
deriving DecidableEq, Repr

structure ForumTagInfo where
  id : String
  name : String
  emoji : Option String := none
  moderated : Bool
  position : Int
deriving DecidableEq, Repr

structure BookmarkInfo where
  id : String
  message_id : String
  channel_id : String
  from_ : String
  content : String
  timestamp : String
  note : Option String := none
  created_at : String
deriving DecidableEq, Repr

structure AuditLogEntry where
  id : String
  actor_id : String
  action_type : String
  target_type : Option String := none
  target_id : Option String := none
  reason : Option String := none
  changes : Option String := none
  created_at : String
deriving DecidableEq, Repr

structure BanInfo where
  id : String
  user_id : String
  banned_by : String
  reason : Option String := none
  created_at : String
deriving DecidableEq, Repr

structure AutomodRuleInfo where
  id : String
  name : String
  enabled : Bool
  rule_type : String
  config : String
  action_type : String
  timeout_duration_seconds : Option Int := none
deriving DecidableEq, Repr

structure InviteInfo where
  id : String
  code : String
  server_id : String
  created_by : String
  max_uses : Option Int := none
  use_count : Int
  expires_at : Option String := none
  channel_id : Option String := none
  created_at : String
deriving DecidableEq, Repr

structure EventInfo where
  id : String
  server_id : String
  name : String
  description : Option String := none
  channel_id : Option String := none
  start_time : String
  end_time : Option String := none
  image_url : Option String := none
  created_by : String
  status : String
  interested_count : Int
  created_at : String
deriving DecidableEq, Repr

structure TemplateInfo where
  id : String
  name : String
  description : Option String := none
  server_id : String
  created_by : String
  use_count : Int
  created_at : String
deriving DecidableEq, Repr

structure ServerCommunityInfo where
  server_id : String
  description : Option String := none
  is_discoverable : Bool
  welcome_message : Option String := none
  rules_text : Option String := none
  category : Option String := none
deriving DecidableEq, Repr

/-! ## Chat store state (web/src/stores/chatStore.ts, interface ChatState) -/

/-- The data fields of the zustand chat store.  `ws` records whether a
`WebSocketManager` instance is attached (`ws: WebSocketManager | null` in the
source); the manager's internals live in the transport model below. -/
structure ChatState where
  connected : Bool
  nickname : Option String
  servers : List ServerInfo
  channels : SMap (List ChannelInfo)
  messages : SMap (List HistoryMessage)
  members : SMap (List MemberInfo)
  hasMore : SMap Bool
  avatars : SMap String
  typingUsers : SMap (List String)
  replyingTo : Option ReplyInfo
  unreadCounts : SMap Int
  customEmoji : SMap (SMap String)
  roles : SMap (List RoleInfo)
  categories : SMap (List CategoryInfo)
  presences : SMap (SMap PresenceInfo)
  userProfiles : SMap UserProfileInfo
  searchResults : Option (List SearchResultMessage)
  searchQuery : String
  searchTotalCount : Int
  pinnedMessages : SMap (List PinnedMessageInfo)
  threads : SMap (List ThreadInfo)
  forumTags : SMap (List ForumTagInfo)
  bookmarks : List BookmarkInfo
  auditLog : SMap (List AuditLogEntry)
  bans : SMap (List BanInfo)
  automodRules : SMap (List AutomodRuleInfo)
  invites : SMap (List InviteInfo)
  serverEvents : SMap (List EventInfo)
  communitySettings : SMap ServerCommunityInfo
  discoverableServers : List ServerCommunityInfo
  templates : SMap (List TemplateInfo)
  ws : Bool
deriving DecidableEq, Repr

/-- The store's initial state (the object literal passed to `create`). -/
def initialChatState : ChatState where
  connected := false
  nickname := none
  servers := []
  channels := []
  messages := []
  members := []
  hasMore := []
  avatars := []
  typingUsers := []
  replyingTo := none
  unreadCounts := []
  customEmoji := []
  roles := []
  categories := []
  presences := []
  userProfiles := []
  searchResults := none
  searchQuery := ""
  searchTotalCount := 0
  pinnedMessages := []
  threads := []
  forumTags := []
  bookmarks := []
  auditLog := []
  bans := []
  automodRules := []
  invites := []
  serverEvents := []
  communitySettings := []
  discoverableServers := []
  templates := []
  ws := false

/-! ## Server events and client commands (subset relevant to the claims;
the remaining variants of the catalogs never touch `messages` or
`unreadCounts`) -/

inductive ServerEvent where
  | message (id : String) (server_id : Option String) (from_ target content timestamp : String)
      (avatar_url : Option String) (reply_to : Option ReplyInfo)
      (attachments : Option (List AttachmentInfo))
  | message_edit (id server_id channel content edited_at : String)
  | message_delete (id server_id channel : String)
  | message_embed (message_id server_id channel : String) (embeds : List EmbedInfo)
  | reaction_add (message_id server_id channel user_id nickname emoji : String)
  | reaction_remove (message_id server_id channel user_id nickname emoji : String)
  | join (nickname server_id channel : String) (avatar_url : Option String)
  | part (nickname server_id channel : String) (reason : Option String)
  | quit (nickname : String) (reason : Option String)
  | names (server_id channel : String) (members : List MemberInfo)
  | topic_change (server_id channel set_by topic : String)
  | channel_list (server_id : String) (channels : List ChannelInfo)
  | history (server_id channel : String) (messages : List HistoryMessage) (has_more : Bool)
  | server_list (servers : List ServerInfo)
  | unread_counts (server_id : String) (counts : List UnreadCount)
  | bulk_message_delete (server_id channel : String) (message_ids : List String)
  | error (code message : String)
deriving DecidableEq, Repr

inductive ClientCommand where
  | list_servers
  | list_roles (server_id : String)
  | list_categories (server_id : String)
  | get_presences (server_id : String)
  | send_message (server_id channel content : String) (reply_to : Option String)
      (attachment_ids : Option (List String))
  | mark_read (server_id channel message_id : String)
deriving DecidableEq, Repr

/-! ## Reducer helpers -/

/-- `cacheAvatar` from chatStore.ts: cache an avatar_url for a nickname if
present (JS truthiness: a present, non-empty string) and different from the
cached one. -/
def cacheAvatar (avatars : SMap String) (nickname : String) (avatar_url : Option String) :
    SMap String :=
  match avatar_url with
  | some url =>
      if url ≠ "" ∧ avatars.get? nickname ≠ some url then avatars.set nickname url else avatars
  | none => avatars

/-- The update the `reaction_add` reducer applies to the matching group: if
the user is already present nothing changes, otherwise the user id is
appended and `count` recomputed as the new length. -/
def bumpGroup (uid : String) (r : ReactionGroup) : ReactionGroup :=
  if uid ∈ r.user_ids then r
  else
    let ids := r.user_ids ++ [uid]
    { r with user_ids := ids, count := (ids.length : Int) }

/-- `reaction_add` on a message's reaction list: update the first group with
the given emoji (`reactions.find`), or push a fresh `{emoji, 1, [uid]}`
group at the end. -/
def addReactionToList (emoji uid : String) : List ReactionGroup → List ReactionGroup
  | [] => [{ emoji := emoji, count := 1, user_ids := [uid] }]
  | r :: rs =>
      if r.emoji = emoji then bumpGroup uid r :: rs
      else r :: addReactionToList emoji uid rs

/-- `reaction_remove` on a message's reaction list: drop the user from every
group with the emoji, recompute its count, then keep only groups with
positive count. -/
def removeReactionFromList (emoji uid : String) (gs : List ReactionGroup) :
    List ReactionGroup :=
  (gs.map (fun r =>
      if r.emoji = emoji then
        let ids := r.user_ids.filter (fun x => x ≠ uid)
        { r with user_ids := ids, count := (ids.length : Int) }
      else r)).filter (fun r => r.count > 0)

/-- Avatar merge loop of the `names` reducer: every member with a truthy
avatar_url overwrites the cache entry for its nickname. -/
def mergeAvatars (avatars : SMap String) (members : List MemberInfo) : SMap String :=
  members.foldl (fun av m =>
    match m.avatar_url with
    | some url => if url ≠ "" then av.set m.nickname url else av
    | none => av) avatars

/-- `event.server_id || 'default'`: a missing (or, by JS truthiness, empty)
server id falls back to the literal string `"default"`. -/
def messageSid (server_id : Option String) : String :=
  match server_id with
  | some v => if v = "" then "default" else v
  | none => "default"

/-! ## handleEvent (the event reducers) -/

/-- `handleEvent` from chatStore.ts, returning the updated state together
with the commands pushed to the websocket manager (`ws?.send`, which is a
no-op when no manager is attached). -/
def handleEvent (ev : ServerEvent) (s : ChatState) : ChatState × List ClientCommand :=
  match ev with
  | .message id server_id from_ target content timestamp avatar_url reply_to attachments =>
      let key := channelKey (messageSid server_id) target
      let msg : HistoryMessage :=
        { id := id, from_ := from_, content := content, timestamp := timestamp,
          reply_to := reply_to, attachments := attachments }
      let newUnread :=
        if s.nickname ≠ some from_ then
          s.unreadCounts.set key ((s.unreadCounts.get? key).getD 0 + 1)
        else s.unreadCounts
      ({ s with
          messages := s.messages.set key (((s.messages.get? key).getD []) ++ [msg]),
          avatars := cacheAvatar s.avatars from_ avatar_url,
          unreadCounts := newUnread }, [])
  | .message_edit id server_id channel content edited_at =>
      let key := channelKey server_id channel
      let msgs := ((s.messages.get? key).getD []).map (fun m =>
        if m.id = id then { m with content := content, edited_at := some edited_at } else m)
      ({ s with messages := s.messages.set key msgs }, [])
  | .message_delete id server_id channel =>
      let key := channelKey server_id channel
      let msgs := ((s.messages.get? key).getD []).filter (fun m => m.id ≠ id)
      ({ s with messages := s.messages.set key msgs }, [])
  | .message_embed message_id server_id channel embeds =>
      let key := channelKey server_id channel
      let msgs := ((s.messages.get? key).getD []).map (fun m =>
        if m.id = message_id then { m with embeds := some embeds } else m)
      ({ s with messages := s.messages.set key msgs }, [])
  | .reaction_add message_id server_id channel user_id _nickname emoji =>
      let key := channelKey server_id channel
      let msgs := ((s.messages.get? key).getD []).map (fun m =>
        if m.id ≠ message_id then m
        else { m with reactions := some (addReactionToList emoji user_id (m.reactions.getD [])) })
      ({ s with messages := s.messages.set key msgs }, [])
  | .reaction_remove message_id server_id channel user_id _nickname emoji =>
      let key := channelKey server_id channel
      let msgs := ((s.messages.get? key).getD []).map (fun m =>
        if m.id ≠ message_id then m
        else { m with reactions := some (removeReactionFromList emoji user_id (m.reactions.getD [])) })
      ({ s with messages := s.messages.set key msgs }, [])
  | .join nickname server_id channel avatar_url =>
      let key := channelKey server_id channel
      let current := (s.members.get? key).getD []
      if current.any (fun m => m.nickname = nickname) then (s, [])
      else
        let memberInfo : MemberInfo := { nickname := nickname, avatar_url := avatar_url }
        ({ s with
            members := s.members.set key (current ++ [memberInfo]),
            avatars := cacheAvatar s.avatars nickname avatar_url }, [])
  | .part nickname server_id channel _reason =>
      let key := channelKey server_id channel
      let ms := ((s.members.get? key).getD []).filter (fun m => m.nickname ≠ nickname)
      ({ s with members := s.members.set key ms }, [])
  | .quit nickname _reason =>
      let newMembers := SMap.mapVals (fun ms => ms.filter (fun m => m.nickname ≠ nickname)) s.members
      ({ s with members := newMembers }, [])
  | .names server_id channel members =>
      let key := channelKey server_id channel
      ({ s with
          members := s.members.set key members,
          avatars := mergeAvatars s.avatars members }, [])
  | .topic_change server_id channel _set_by topic =>
      match s.channels.get? server_id with
      | none => (s, [])
      | some serverChannels =>
          let chs := serverChannels.map (fun ch =>
            if ch.name = channel then { ch with topic := topic } else ch)
          ({ s with channels := s.channels.set server_id chs }, [])
  | .channel_list server_id channels =>
      ({ s with channels := s.channels.set server_id channels },
        if s.ws then
          [.list_roles server_id, .list_categories server_id, .get_presences server_id]
        else [])
  | .history server_id channel messages has_more =>
      let key := channelKey server_id channel
      let msgs := messages.reverse ++ ((s.messages.get? key).getD [])
      ({ s with
          messages := s.messages.set key msgs,
          hasMore := s.hasMore.set key has_more }, [])
  | .server_list servers => ({ s with servers := servers }, [])
  | .unread_counts server_id counts =>
      let newUnread :=
        counts.foldl (fun m c => m.set (channelKey server_id c.channel_name) c.count)
          s.unreadCounts
      ({ s with unreadCounts := newUnread }, [])
  | .bulk_message_delete server_id channel message_ids =>
      let key := channelKey server_id channel
      let msgs := ((s.messages.get? key).getD []).filter (fun m => ¬ m.id ∈ message_ids)
      ({ s with messages := s.messages.set key msgs }, [])
  | .error _code _message => (s, [])

/-! ## Store actions (optimistic layer) -/

/-- `sendMessage` from chatStore.ts.  The fresh UUID and the current time are
passed explicitly (`crypto.randomUUID()` and `new Date().toISOString()` in
the source).  The guard is `if (!ws || !nickname) return`: by JS truthiness
it rejects a missing manager, a null nickname, and an empty-string
nickname alike.  Returns the new state and the commands handed to
`ws.send`. -/
def sendMessage (s : ChatState) (serverId channel content : String)
    (attachments : Option (List AttachmentInfo)) (uuid now : String) :
    ChatState × List ClientCommand :=
  match s.ws, s.nickname with
  | true, some nickname =>
      if nickname = "" then (s, [])
      else
      let key := channelKey serverId channel
      let msg : HistoryMessage :=
        { id := uuid, from_ := nickname, content := content, timestamp := now,
          reply_to := s.replyingTo, attachments := attachments }
      ({ s with
          messages := s.messages.set key (((s.messages.get? key).getD []) ++ [msg]),
          replyingTo := none },
        [.send_message serverId channel content (s.replyingTo.map (fun r => r.id))
          (attachments.map (fun l => l.map (fun a => a.id)))])
  | _, _ => (s, [])

/-- `markRead` from chatStore.ts: hand a `mark_read` command to the manager
when one is attached, and optimistically delete the unread-count entry. -/
def markRead (s : ChatState) (serverId channel messageId : String) :
    ChatState × List ClientCommand :=
  let key := channelKey serverId channel
  ({ s with unreadCounts := s.unreadCounts.del key },
    if s.ws then [.mark_read serverId channel messageId] else [])

/-- `setReplyingTo` from chatStore.ts. -/
def setReplyingTo (s : ChatState) (reply : Option ReplyInfo) : ChatState :=
  { s with replyingTo := reply }

/-- The state part of `connect` from chatStore.ts: a no-op when a manager is
already attached, otherwise attach one and record the nickname. -/
def connectState (s : ChatState) (nickname : String) : ChatState :=
  if s.ws then s else { s with ws := true, nickname := some nickname }

/-- The connection-status callback passed to the manager by `connect`
(`(connected) => set({ connected })`). -/
def setConnected (s : ChatState) (connected : Bool) : ChatState :=
  { s with connected := connected }

/-- The state part of `disconnect` from chatStore.ts (value level; the
identity-instrumented version is below). -/
def disconnectState (s : ChatState) : ChatState :=
  { s with
      ws := false, connected := false, servers := [], channels := [], messages := [],
      members := [], hasMore := [], avatars := [], typingUsers := [], replyingTo := none,
      unreadCounts := [], customEmoji := [], roles := [], categories := [], presences := [],
      userProfiles := [], searchResults := none, searchQuery := "", searchTotalCount := 0,
      pinnedMessages := [], threads := [], forumTags := [], bookmarks := [], auditLog := [],
      bans := [], automodRules := [], invites := [], serverEvents := [],
      communitySettings := [], discoverableServers := [], templates := [] }

/-! ## Reachability: interleavings of events and store actions -/

/-- One step of store evolution: a server event or a local action. -/
inductive Step where
  | ev (e : ServerEvent)
  | connect (nickname : String)
  | setConn (connected : Bool)
  | disconnect
  | sendMsg (serverId channel content : String) (attachments : Option (List AttachmentInfo))
      (uuid now : String)
  | markRead (serverId channel messageId : String)
  | setReply (reply : Option ReplyInfo)
deriving DecidableEq, Repr

/-- Apply one step to the state (commands emitted are not part of the
state). -/
def applyStep (s : ChatState) (st : Step) : ChatState :=
  match st with
  | .ev e => (handleEvent e s).1
  | .connect n => connectState s n
  | .setConn b => setConnected s b
  | .disconnect => disconnectState s
  | .sendMsg sid ch c a u t => (sendMessage s sid ch c a u t).1
  | .markRead sid ch mid => (markRead s sid ch mid).1
  | .setReply r => setReplyingTo s r

/-- Apply a sequence of steps from a starting state. -/
def applySteps (s : ChatState) (sts : List Step) : ChatState :=
  sts.foldl applyStep s

/-- Apply a sequence of server events from a starting state. -/
def applyEvents (s : ChatState) (evs : List ServerEvent) : ChatState :=
  evs.foldl (fun s e => (handleEvent e s).1) s

/-! ## Identity-instrumented model

JavaScript containers are compared by `Object.is` in zustand selectors, so
object identity is observable.  `TRef` pairs a container value with an
abstract allocation identity; embedded operations allocate a fresh identity
exactly where the source constructs a new object or array (`{...}` spread,
array literal) and reuse the `TRef` where the source passes the reference
through.  Fresh identities are drawn from an explicit counter. -/

structure TRef (α : Type) where
  id : Nat
  val : α
deriving DecidableEq, Repr

/-! The module-level constant empty collections of chatStore.ts (its lines
10–31).  Each is a single allocation, so each gets a fixed identity; fresh
identities handed out at runtime are always taken above these. -/

def EMPTY_SERVERS : TRef (List ServerInfo) := ⟨0, []⟩

def EMPTY_CHANNELS_MAP : TRef (SMap (List ChannelInfo)) := ⟨1, []⟩

def EMPTY_MESSAGES_MAP : TRef (SMap (TRef (List HistoryMessage))) := ⟨2, []⟩

def EMPTY_MEMBERS_MAP : TRef (SMap (List MemberInfo)) := ⟨3, []⟩

def EMPTY_HAS_MORE : TRef (SMap Bool) := ⟨4, []⟩

def EMPTY_AVATARS : TRef (SMap String) := ⟨5, []⟩

def EMPTY_TYPING : TRef (SMap (List String)) := ⟨6, []⟩

def EMPTY_UNREAD : TRef (SMap Int) := ⟨7, []⟩

def EMPTY_EMOJI : TRef (SMap (SMap String)) := ⟨8, []⟩

def EMPTY_ROLES : TRef (SMap (List RoleInfo)) := ⟨9, []⟩

def EMPTY_CATEGORIES : TRef (SMap (List CategoryInfo)) := ⟨10, []⟩

def EMPTY_PRESENCES : TRef (SMap (SMap PresenceInfo)) := ⟨11, []⟩

def EMPTY_PROFILES : TRef (SMap UserProfileInfo) := ⟨12, []⟩

def EMPTY_PINS : TRef (SMap (List PinnedMessageInfo)) := ⟨13, []⟩

def EMPTY_THREADS : TRef (SMap (List ThreadInfo)) := ⟨14, []⟩

def EMPTY_FORUM_TAGS : TRef (SMap (List ForumTagInfo)) := ⟨15, []⟩

def EMPTY_BOOKMARKS : TRef (List BookmarkInfo) := ⟨16, []⟩

def EMPTY_INVITES : TRef (SMap (List InviteInfo)) := ⟨17, []⟩

def EMPTY_EVENTS : TRef (SMap (List EventInfo)) := ⟨18, []⟩

def EMPTY_COMMUNITY : TRef (SMap ServerCommunityInfo) := ⟨19, []⟩

def EMPTY_DISCOVER : TRef (List ServerCommunityInfo) := ⟨20, []⟩

def EMPTY_TEMPLATES : TRef (SMap (List TemplateInfo)) := ⟨21, []⟩

/-- First identity strictly above every module-level sentinel. -/
def firstDynamicId : Nat := 22

/-- The chat store with identity-instrumented containers.  Scalar fields
(`Bool`, `String`, `Int`, `null`) are JS primitives, for which `Object.is`
is value equality, so they carry no identity.  Message arrays inside
`messages` are tracked individually because reducers share them across
updates. -/
structure ChatStateI where
  connected : Bool
  nickname : Option String
  servers : TRef (List ServerInfo)
  channels : TRef (SMap (List ChannelInfo))
  messages : TRef (SMap (TRef (List HistoryMessage)))
  members : TRef (SMap (List MemberInfo))
  hasMore : TRef (SMap Bool)
  avatars : TRef (SMap String)
  typingUsers : TRef (SMap (List String))
  replyingTo : Option ReplyInfo
  unreadCounts : TRef (SMap Int)
  customEmoji : TRef (SMap (SMap String))
  roles : TRef (SMap (List RoleInfo))
  categories : TRef (SMap (List CategoryInfo))
  presences : TRef (SMap (SMap PresenceInfo))
  userProfiles : TRef (SMap UserProfileInfo)
  searchResults : Option (List SearchResultMessage)
  searchQuery : String
  searchTotalCount : Int
  pinnedMessages : TRef (SMap (List PinnedMessageInfo))
  threads : TRef (SMap (List ThreadInfo))
  forumTags : TRef (SMap (List ForumTagInfo))
  bookmarks : TRef (List BookmarkInfo)
  auditLog : TRef (SMap (List AuditLogEntry))
  bans : TRef (SMap (List BanInfo))
  automodRules : TRef (SMap (List AutomodRuleInfo))
  invites : TRef (SMap (List InviteInfo))
  serverEvents : TRef (SMap (List EventInfo))
  communitySettings : TRef (SMap ServerCommunityInfo)
  discoverableServers : TRef (List ServerCommunityInfo)
  templates : TRef (SMap (List TemplateInfo))
  ws : Bool
deriving DecidableEq, Repr

/-- The initial store object.  The sentinel-initialised fields reuse the
module-level constants; `auditLog`, `bans` and `automodRules` are
initialised from fresh `{} as Record<…>` literals (chatStore.ts lines
214–216), so they allocate. -/
def initialChatStateI (n : Nat) : ChatStateI × Nat :=
  ({ connected := false
     nickname := none
     servers := EMPTY_SERVERS
     channels := EMPTY_CHANNELS_MAP
     messages := EMPTY_MESSAGES_MAP
     members := EMPTY_MEMBERS_MAP
     hasMore := EMPTY_HAS_MORE
     avatars := EMPTY_AVATARS
     typingUsers := EMPTY_TYPING
     replyingTo := none
     unreadCounts := EMPTY_UNREAD
     customEmoji := EMPTY_EMOJI
     roles := EMPTY_ROLES
     categories := EMPTY_CATEGORIES
     presences := EMPTY_PRESENCES
     userProfiles := EMPTY_PROFILES
     searchResults := none
     searchQuery := ""
     searchTotalCount := 0
     pinnedMessages := EMPTY_PINS
     threads := EMPTY_THREADS
     forumTags := EMPTY_FORUM_TAGS
     bookmarks := EMPTY_BOOKMARKS
     auditLog := ⟨n, []⟩
     bans := ⟨n + 1, []⟩
     automodRules := ⟨n + 2, []⟩
     invites := EMPTY_INVITES
     serverEvents := EMPTY_EVENTS
     communitySettings := EMPTY_COMMUNITY
     discoverableServers := EMPTY_DISCOVER
     templates := EMPTY_TEMPLATES
     ws := false }, n + 3)

/-- `disconnect` from chatStore.ts, identity level.  Twenty-two maps are
reset to the module-level sentinels, but `auditLog`, `bans` and
`automodRules` are reset with fresh `{} as Record<…>` literals (lines
275–277), which allocate new empty objects. -/
def disconnectI (s : ChatStateI) (n : Nat) : ChatStateI × Nat :=
  ({ s with
      ws := false
      connected := false
      servers := EMPTY_SERVERS
      channels := EMPTY_CHANNELS_MAP
      messages := EMPTY_MESSAGES_MAP
      members := EMPTY_MEMBERS_MAP
      hasMore := EMPTY_HAS_MORE
      avatars := EMPTY_AVATARS
      typingUsers := EMPTY_TYPING
      replyingTo := none
      unreadCounts := EMPTY_UNREAD
      customEmoji := EMPTY_EMOJI
      roles := EMPTY_ROLES
      categories := EMPTY_CATEGORIES
      presences := EMPTY_PRESENCES
      userProfiles := EMPTY_PROFILES
      searchResults := none
      searchQuery := ""
      searchTotalCount := 0
      pinnedMessages := EMPTY_PINS
      threads := EMPTY_THREADS
      forumTags := EMPTY_FORUM_TAGS
      bookmarks := EMPTY_BOOKMARKS
      auditLog := ⟨n, []⟩
      bans := ⟨n + 1, []⟩
      automodRules := ⟨n + 2, []⟩
      invites := EMPTY_INVITES
      serverEvents := EMPTY_EVENTS
      communitySettings := EMPTY_COMMUNITY
      discoverableServers := EMPTY_DISCOVER
      templates := EMPTY_TEMPLATES }, n + 3)

/-- `cacheAvatar`, identity level: when it updates it builds a fresh
`{ ...avatars, [nickname]: avatar_url }` object; otherwise it returns the
incoming reference unchanged. -/
def cacheAvatarI (avatars : TRef (SMap String)) (nickname : String)
    (avatar_url : Option String) (n : Nat) : TRef (SMap String) × Nat :=
  match avatar_url with
  | some url =>
      if url ≠ "" ∧ avatars.val.get? nickname ≠ some url then
        (⟨n, avatars.val.set nickname url⟩, n + 1)
      else (avatars, n)
  | none => (avatars, n)

/-- The `message` reducer, identity level.  `newUnread` is a fresh
`{ ...s.unreadCounts }` spread copy, allocated before the conditional
increment; the returned object carries a fresh `messages` map whose entry
for the event's key is a fresh array, while every other entry keeps its
reference. -/
def handleMessageI (id : String) (server_id : Option String)
    (from_ target content timestamp : String) (avatar_url : Option String)
    (reply_to : Option ReplyInfo) (attachments : Option (List AttachmentInfo))
    (s : ChatStateI) (n : Nat) : ChatStateI × Nat :=
  let key := channelKey (messageSid server_id) target
  let msg : HistoryMessage :=
    { id := id, from_ := from_, content := content, timestamp := timestamp,
      reply_to := reply_to, attachments := attachments }
  let newUnreadVal :=
    if s.nickname ≠ some from_ then
      s.unreadCounts.val.set key ((s.unreadCounts.val.get? key).getD 0 + 1)
    else s.unreadCounts.val
  let oldArr := ((s.messages.val.get? key).map TRef.val).getD []
  let newArr : TRef (List HistoryMessage) := ⟨n + 1, oldArr ++ [msg]⟩
  let newMessages : TRef (SMap (TRef (List HistoryMessage))) :=
    ⟨n + 2, s.messages.val.set key newArr⟩
  let res := cacheAvatarI s.avatars from_ avatar_url (n + 3)
  ({ s with
      messages := newMessages,
      avatars := res.1,
      unreadCounts := ⟨n, newUnreadVal⟩ }, res.2)

/-! ## UI intent store (web/src/stores/uiStore.ts) and durable storage -/

structure ServerFolder where
  id : String
  name : String
  serverIds : List String
  collapsed : Bool
deriving DecidableEq, Repr

/-- The data fields of the zustand UI store. -/
structure UiState where
  activeServer : Option String
  activeChannel : Option String
  showMemberList : Bool
  showSettings : Bool
  showServerSettings : Bool
  collapsedCategories : SMap Bool
  serverFolders : List ServerFolder
  showSearch : Bool
  showUserProfile : Option String
  showQuickSwitcher : Bool
  showPinnedMessages : Bool
  showThreadPanel : Bool
  activeThreadId : Option String
  showBookmarks : Bool
  showModerationPanel : Bool
  showCommunityPanel : Bool
deriving DecidableEq, Repr

/-- A stored value is either a parseable JSON array of folders or an
unparseable string. -/
inductive StorageVal where
  | folders (fs : List ServerFolder)
  | corrupt
deriving DecidableEq, Repr

/-- `localStorage`, with failure flags: `readOk = false` makes `getItem`
throw, `writeOk = false` makes `setItem` throw (for example quota
exhaustion). -/
structure Storage where
  readOk : Bool
  writeOk : Bool
  slots : SMap StorageVal
deriving DecidableEq, Repr

def FOLDERS_KEY : String := "concord:server-folders"

/-- `loadFolders` from uiStore.ts: the whole read-and-parse is wrapped in
`try … catch` and every failure (getItem throw, missing key, parse throw)
falls back to the empty list. -/
def loadFolders (st : Storage) : List ServerFolder :=
  if st.readOk then
    match st.slots.get? FOLDERS_KEY with
    | some (.folders fs) => fs
    | some .corrupt => []
    | none => []
  else []

/-- `saveFolders` from uiStore.ts: a bare `localStorage.setItem` with no
`try … catch`, so a write failure escapes as an exception. -/
def saveFolders (st : Storage) (folders : List ServerFolder) : Except Unit Storage :=
  if st.writeOk then .ok { st with slots := st.slots.set FOLDERS_KEY (.folders folders) }
  else .error ()

/-- The UI store's initial state: `serverFolders` is loaded from storage at
store creation. -/
def initialUiState (st : Storage) : UiState where
  activeServer := none
  activeChannel := none
  showMemberList := true
  showSettings := false
  showServerSettings := false
  collapsedCategories := []
  serverFolders := loadFolders st
  showSearch := false
  showUserProfile := none
  showQuickSwitcher := false
  showPinnedMessages := false
  showThreadPanel := false
  activeThreadId := none
  showBookmarks := false
  showModerationPanel := false
  showCommunityPanel := false

/-- `setServerFolders`: `saveFolders` runs before `set`, so a storage write
failure aborts the in-memory update. -/
def setServerFolders (ui : UiState) (st : Storage) (folders : List ServerFolder) :
    Except Unit (UiState × Storage) :=
  match saveFolders st folders with
  | .ok st' => .ok ({ ui with serverFolders := folders }, st')
  | .error e => .error e

/-- `addServerFolder`: builds a folder with a fresh UUID (passed explicitly
here), saves, then updates state; the save runs inside the `set` updater,
so its exception aborts the update. -/
def addServerFolder (ui : UiState) (st : Storage) (name : String)
    (serverIds : List String) (uuid : String) : Except Unit (UiState × Storage) :=
  let folder : ServerFolder :=
    { id := uuid, name := name, serverIds := serverIds, collapsed := false }
  let updated := ui.serverFolders ++ [folder]
  match saveFolders st updated with
  | .ok st' => .ok ({ ui with serverFolders := updated }, st')
  | .error e => .error e

/-- `removeServerFolder`. -/
def removeServerFolder (ui : UiState) (st : Storage) (folderId : String) :
    Except Unit (UiState × Storage) :=
  let updated := ui.serverFolders.filter (fun f => f.id ≠ folderId)
  match saveFolders st updated with
  | .ok st' => .ok ({ ui with serverFolders := updated }, st')
  | .error e => .error e

/-- `toggleServerFolder`. -/
def toggleServerFolder (ui : UiState) (st : Storage) (folderId : String) :
    Except Unit (UiState × Storage) :=
  let updated := ui.serverFolders.map (fun f =>
    if f.id = folderId then { f with collapsed := ¬ f.collapsed } else f)
  match saveFolders st updated with
  | .ok st' => .ok ({ ui with serverFolders := updated }, st')
  | .error e => .error e

/-! ## Transport -/

/-- Modelled from the spec: the `WebSocketManager` (web/src/api/websocket.ts)
is not among the sources, only its call sites are.  Per §4.1 `send` while
not connected buffers the command in a FIFO (buffering is required for
commands issued between `connect` and `onopen`), and the queue is flushed
on each successful open. -/
structure Transport where
  isOpen : Bool
  queue : List ClientCommand
deriving DecidableEq, Repr

/-- `send`: transmit immediately when open, else buffer.  Returns the new
transport state and the frames put on the wire now. -/
def Transport.send (t : Transport) (c : ClientCommand) : Transport × List ClientCommand :=
  if t.isOpen then (t, [c]) else ({ t with queue := t.queue ++ [c] }, [])

/-- A successful (re)open: the buffered queue is flushed to the wire. -/
def Transport.onOpen (t : Transport) : Transport × List ClientCommand :=
  ({ isOpen := true, queue := [] }, t.queue)

/-- The processes' stores side by side: the chat store
(identity-instrumented), the UI intent store, and durable local storage.
`disconnect` lives on the chat store and references neither of the other
two. -/
structure WorldI where
  chat : ChatStateI
  ui : UiState
  storage : Storage
deriving DecidableEq, Repr

/-- `disconnect` as it acts on the world: only the chat store changes. -/
def disconnectW (w : WorldI) (n : Nat) : WorldI × Nat :=
  ({ w with chat := (disconnectI w.chat n).1 }, (disconnectI w.chat n).2)

/-! ## Sample data used by concrete scenarios -/

/-- A minimal message with the given id (used by the concrete scenarios). -/
def sampleMsg (i : String) : HistoryMessage :=
  { id := i, from_ := "bob", content := "c" ++ i, timestamp := "t" ++ i }

/-! # Theorems -/

/-- C4: for every `history` event the reducer reverses the event's messages
(which arrive newest first) and prepends them to `messages[key]`, keeping
every previously present message in order; `hasMore[key]` is set to the
event's flag; no other key of either map changes and no command is
emitted.  In particular, from pre-state `[m3, m4]` and event messages
`[m2, m1]` the post-state is `[m1, m2, m3, m4]`. -/
theorem history_reducer_spec (s : ChatState) (sid ch : String)
    (msgs : List HistoryMessage) (hm : Bool) :
    ((handleEvent (.history sid ch msgs hm) s).1.messages.get? (channelKey sid ch) =
      some (msgs.reverse ++ (s.messages.get? (channelKey sid ch)).getD [])) ∧
    ((handleEvent (.history sid ch msgs hm) s).1.hasMore.get? (channelKey sid ch) = some hm) ∧
    (∀ k, k ≠ channelKey sid ch →
      (handleEvent (.history sid ch msgs hm) s).1.messages.get? k = s.messages.get? k) ∧
    (∀ k, k ≠ channelKey sid ch →
      (handleEvent (.history sid ch msgs hm) s).1.hasMore.get? k = s.hasMore.get? k) ∧
    ((handleEvent (.history sid ch msgs hm) s).2 = []) ∧
    ((handleEvent
        (.history "srv1" "#g" [sampleMsg "m2", sampleMsg "m1"] true)
        { initialChatState with
            messages := [("srv1:#g", [sampleMsg "m3", sampleMsg "m4"])] }).1.messages.get?
      "srv1:#g" =
      some [sampleMsg "m1", sampleMsg "m2", sampleMsg "m3", sampleMsg "m4"]) := by
  refine ⟨?_, ?_, ?_, ?_, rfl, by decide⟩
  · simp [handleEvent, SMap.get?_set_self]
  · simp [handleEvent, SMap.get?_set_self]
  · intro k hk
    simp [handleEvent, SMap.get?_set_other _ _ _ _ hk]
  · intro k hk
    simp [handleEvent, SMap.get?_set_other _ _ _ _ hk]

/-- Witness for `history_reducer_spec`: a history event for one channel
leaves another channel's messages untouched. -/
theorem history_reducer_spec_witness :
    (handleEvent (.history "srv1" "#g" [sampleMsg "m2", sampleMsg "m1"] true)
      initialChatState).1.messages.get? "srv2:#h" =
      initialChatState.messages.get? "srv2:#h" :=
  (history_reducer_spec initialChatState "srv1" "#g" [sampleMsg "m2", sampleMsg "m1"]
    true).2.2.1 "srv2:#h" (by decide)

/-- C5: a `channel_list` event replaces `channels[server_id]` with the
event's list (leaving other servers' channel lists unchanged) and, when a
websocket manager is attached, hands exactly `list_roles`,
`list_categories`, `get_presences` for that server to it, in that order. -/
theorem channel_list_reducer_spec (s : ChatState) (sid : String)
    (chs : List ChannelInfo) (hws : s.ws = true) :
    ((handleEvent (.channel_list sid chs) s).1 =
      { s with channels := s.channels.set sid chs }) ∧
    ((handleEvent (.channel_list sid chs) s).1.channels.get? sid = some chs) ∧
    (∀ k, k ≠ sid →
      (handleEvent (.channel_list sid chs) s).1.channels.get? k = s.channels.get? k) ∧
    ((handleEvent (.channel_list sid chs) s).2 =
      [.list_roles sid, .list_categories sid, .get_presences sid]) := by
  refine ⟨rfl, ?_, ?_, ?_⟩
  · simp [handleEvent, SMap.get?_set_self]
  · intro k hk
    simp [handleEvent, SMap.get?_set_other _ _ _ _ hk]
  · simp [handleEvent, hws]

/-- Witness for `channel_list_reducer_spec` at a concrete connected store. -/
theorem channel_list_reducer_spec_witness :
    (handleEvent (.channel_list "srv1" []) { initialChatState with ws := true }).2 =
      [.list_roles "srv1", .list_categories "srv1", .get_presences "srv1"] :=
  (channel_list_reducer_spec { initialChatState with ws := true } "srv1" [] rfl).2.2.2

/-- C10 (amended): `markRead` always deletes the unread-count entry for the
channel key and changes no other store field; a `mark_read` command is
handed to the websocket manager exactly when one is attached, regardless
of `connected`. -/
theorem markRead_spec (s : ChatState) (sid ch mid : String) :
    ((markRead s sid ch mid).1 =
      { s with unreadCounts := s.unreadCounts.del (channelKey sid ch) }) ∧
    ((markRead s sid ch mid).1.unreadCounts.get? (channelKey sid ch) = none) ∧
    (∀ k, k ≠ channelKey sid ch →
      (markRead s sid ch mid).1.unreadCounts.get? k = s.unreadCounts.get? k) ∧
    ((markRead s sid ch mid).2 =
      if s.ws then [.mark_read sid ch mid] else []) := by
  refine ⟨rfl, ?_, ?_, rfl⟩
  · simp [markRead, SMap.get?_del_self]
  · intro k hk
    simp [markRead, SMap.get?_del_other _ _ _ hk]

/-- Witness for `markRead_spec`: marking one channel read leaves another
channel's unread count untouched. -/
theorem markRead_spec_witness :
    (markRead initialChatState "srv1" "#g" "m1").1.unreadCounts.get? "srv2:#h" =
      initialChatState.unreadCounts.get? "srv2:#h" :=
  (markRead_spec initialChatState "srv1" "#g" "m1").2.2.1 "srv2:#h" (by decide)

/-- C10 counterexample: with a manager attached but the socket not
connected, `markRead` still hands a `mark_read` command to the manager;
the manager (spec §4.1) buffers it and flushes it to the wire on the next
successful open, so the server is notified after all — while the local
count is already cleared. -/
theorem markRead_hands_command_to_disconnected_transport :
    (let s : ChatState :=
      { initialChatState with
          ws := true, connected := false, nickname := some "alice",
          unreadCounts := [("srv1:#g", 3)] }
    s.connected = false ∧
    (markRead s "srv1" "#g" "m7").2 = [.mark_read "srv1" "#g" "m7"] ∧
    (markRead s "srv1" "#g" "m7").1.unreadCounts.get? "srv1:#g" = none) ∧
    (Transport.send ⟨false, []⟩ (.mark_read "srv1" "#g" "m7")).2 = [] ∧
    (Transport.onOpen (Transport.send ⟨false, []⟩ (.mark_read "srv1" "#g" "m7")).1).2 =
      [.mark_read "srv1" "#g" "m7"] := by
  exact ⟨⟨rfl, rfl, by decide⟩, rfl, rfl⟩

/-- C3 (amended): `sendMessage` is a no-op exactly when no websocket manager
is attached or the nickname is unknown (null or, by JS truthiness, the
empty string); otherwise it appends one local message carrying the fresh
UUID, the own nickname, the current time, the current `replyingTo` and the
provided attachments, clears `replyingTo`, touches nothing else, and hands
one `send_message` command (with `reply_to.id` and the attachment ids) to
the manager. -/
theorem sendMessage_spec (s : ChatState) (serverId channel content : String)
    (attachments : Option (List AttachmentInfo)) (uuid now : String) :
    ((s.ws = false ∨ s.nickname = none ∨ s.nickname = some "") →
      sendMessage s serverId channel content attachments uuid now = (s, [])) ∧
    (∀ nick, s.ws = true → s.nickname = some nick → nick ≠ "" →
      ((sendMessage s serverId channel content attachments uuid now).1 =
        { s with
            messages := s.messages.set (channelKey serverId channel)
              (((s.messages.get? (channelKey serverId channel)).getD []) ++
                [{ id := uuid, from_ := nick, content := content, timestamp := now,
                   reply_to := s.replyingTo, attachments := attachments }]),
            replyingTo := none }) ∧
      ((sendMessage s serverId channel content attachments uuid now).2 =
        [.send_message serverId channel content (s.replyingTo.map (fun r => r.id))
          (attachments.map (fun l => l.map (fun a => a.id)))])) := by
  constructor
  · intro h
    cases hw : s.ws
    · simp [sendMessage, hw]
    · rcases h with h | h | h
      · simp [h] at hw
      · simp [sendMessage, hw, h]
      · simp [sendMessage, hw, h]
  · intro nick hw hn hne
    simp only [sendMessage, hw, hn]
    rw [if_neg hne]
    exact ⟨rfl, rfl⟩

/-- Witness for `sendMessage_spec`: the S1 scenario (connected store,
nickname `alice`, empty channel) produces one local message from `alice`
and one `send_message` command. -/
theorem sendMessage_spec_witness :
    (sendMessage
      { initialChatState with ws := true, connected := true, nickname := some "alice" }
      "srv1" "#g" "hi" none "u1" "t1").1 =
      { initialChatState with
          ws := true, connected := true, nickname := some "alice",
          messages := [("srv1:#g",
            [{ id := "u1", from_ := "alice", content := "hi", timestamp := "t1",
               reply_to := none, attachments := none }])],
          replyingTo := none } := by
  have h := (sendMessage_spec
    { initialChatState with ws := true, connected := true, nickname := some "alice" }
    "srv1" "#g" "hi" none "u1" "t1").2 "alice" rfl rfl (by decide)
  rw [h.1]
  decide

/-- C3 counterexample: a store with a manager attached but `connected =
false` (the state between `connect()` and the socket's open event, or
after a drop) does not reject: `sendMessage` appends the local message and
hands the command to the manager, contradicting "rejects whenever the
client is not connected". -/
theorem sendMessage_proceeds_when_disconnected :
    (let s : ChatState :=
      { initialChatState with ws := true, connected := false, nickname := some "alice" }
    s.connected = false ∧
    (sendMessage s "srv1" "#g" "hi" none "u1" "t1").1.messages.get? "srv1:#g" =
      some [{ id := "u1", from_ := "alice", content := "hi", timestamp := "t1",
              reply_to := none, attachments := none }] ∧
    (sendMessage s "srv1" "#g" "hi" none "u1" "t1").2 =
      [.send_message "srv1" "#g" "hi" none none]) := by
  refine ⟨rfl, by decide, rfl⟩

/-- C2: a `message` event appends exactly one message (with the event's id,
sender, content, timestamp, reply and attachments) to `messages[key]`,
caches the sender's avatar whenever the event carries a non-empty
avatar_url, increments `unreadCounts[key]` by exactly 1 when the sender
differs from the own nickname and leaves `unreadCounts` unchanged (as a
value) when it does not, leaves every other key of both maps unchanged,
uses the literal `"default"` server id when the event carries none, and
emits no command. -/
theorem message_reducer_spec (s : ChatState) (id : String) (server_id : Option String)
    (from_ target content timestamp : String) (avatar_url : Option String)
    (reply_to : Option ReplyInfo) (attachments : Option (List AttachmentInfo)) :
    ((handleEvent (.message id server_id from_ target content timestamp avatar_url
        reply_to attachments) s).1.messages.get? (channelKey (messageSid server_id) target) =
      some (((s.messages.get? (channelKey (messageSid server_id) target)).getD []) ++
        [{ id := id, from_ := from_, content := content, timestamp := timestamp,
           reply_to := reply_to, attachments := attachments }])) ∧
    (∀ k, k ≠ channelKey (messageSid server_id) target →
      (handleEvent (.message id server_id from_ target content timestamp avatar_url
        reply_to attachments) s).1.messages.get? k = s.messages.get? k) ∧
    (∀ url, avatar_url = some url → url ≠ "" →
      (handleEvent (.message id server_id from_ target content timestamp avatar_url
        reply_to attachments) s).1.avatars.get? from_ = some url) ∧
    (s.nickname ≠ some from_ →
      (handleEvent (.message id server_id from_ target content timestamp avatar_url
        reply_to attachments) s).1.unreadCounts.get?
          (channelKey (messageSid server_id) target) =
        some ((s.unreadCounts.get? (channelKey (messageSid server_id) target)).getD 0 + 1)) ∧
    (s.nickname = some from_ →
      (handleEvent (.message id server_id from_ target content timestamp avatar_url
        reply_to attachments) s).1.unreadCounts = s.unreadCounts) ∧
    (∀ k, k ≠ channelKey (messageSid server_id) target →
      (handleEvent (.message id server_id from_ target content timestamp avatar_url
        reply_to attachments) s).1.unreadCounts.get? k = s.unreadCounts.get? k) ∧
    (server_id = none → messageSid server_id = "default") ∧
    ((handleEvent (.message id server_id from_ target content timestamp avatar_url
        reply_to attachments) s).2 = []) := by
  refine ⟨?_, ?_, ?_, ?_, ?_, ?_, ?_, rfl⟩
  · simp [handleEvent, SMap.get?_set_self]
  · intro k hk
    simp [handleEvent, SMap.get?_set_other _ _ _ _ hk]
  · intro url hurl hne
    subst hurl
    by_cases hc : s.avatars.get? from_ = some url
    · simp [handleEvent, cacheAvatar, hne, hc, SMap.get?_set_self]
    · simp [handleEvent, cacheAvatar, hne, hc, SMap.get?_set_self]
  · intro h
    simp [handleEvent, h, SMap.get?_set_self]
  · intro h
    simp [handleEvent, h]
  · intro k hk
    by_cases h : s.nickname = some from_
    · simp [handleEvent, h]
    · simp [handleEvent, h, SMap.get?_set_other _ _ _ _ hk]
  · intro h
    subst h
    rfl

/-- Witness for `message_reducer_spec`: the S2 scenario — a message from
`bob` with `nickname = "alice"` makes `unreadCounts["srv1:#g"] = 1` and a
subsequent message from `alice` leaves the count at 1 while the channel
grows to two messages. -/
theorem message_reducer_spec_witness :
    ((handleEvent (.message "m1" (some "srv1") "bob" "#g" "yo" "t" none none none)
      { initialChatState with nickname := some "alice" }).1.unreadCounts.get? "srv1:#g" =
      some 1) ∧
    ((handleEvent (.message "m2" (some "srv1") "alice" "#g" "hi" "t2" none none none)
      (handleEvent (.message "m1" (some "srv1") "bob" "#g" "yo" "t" none none none)
        { initialChatState with nickname := some "alice" }).1).1.unreadCounts.get?
      "srv1:#g" = some 1) := by
  constructor
  · have h := (message_reducer_spec { initialChatState with nickname := some "alice" }
      "m1" (some "srv1") "bob" "#g" "yo" "t" none none none).2.2.2.1 (by decide)
    simpa using h
  · have h := (message_reducer_spec
      ((handleEvent (.message "m1" (some "srv1") "bob" "#g" "yo" "t" none none none)
        { initialChatState with nickname := some "alice" }).1)
      "m2" (some "srv1") "alice" "#g" "hi" "t2" none none none).2.2.2.2.1 (by decide)
    rw [h]
    decide

/-- C6 (amended): `disconnect` resets twenty-two of the server-derived maps
to their module-level empty sentinels (the identical constant containers),
but resets `auditLog`, `bans` and `automodRules` to freshly allocated
empty objects; it clears `replyingTo` and the search state, sets
`connected = false`, detaches the manager, and leaves the nickname, the
whole UI intent store and the persisted storage untouched. -/
theorem disconnect_reset_spec (w : WorldI) (n : Nat) :
    ((disconnectW w n).1.chat.servers = EMPTY_SERVERS) ∧
    ((disconnectW w n).1.chat.channels = EMPTY_CHANNELS_MAP) ∧
    ((disconnectW w n).1.chat.messages = EMPTY_MESSAGES_MAP) ∧
    ((disconnectW w n).1.chat.members = EMPTY_MEMBERS_MAP) ∧
    ((disconnectW w n).1.chat.hasMore = EMPTY_HAS_MORE) ∧
    ((disconnectW w n).1.chat.avatars = EMPTY_AVATARS) ∧
    ((disconnectW w n).1.chat.typingUsers = EMPTY_TYPING) ∧
    ((disconnectW w n).1.chat.unreadCounts = EMPTY_UNREAD) ∧
    ((disconnectW w n).1.chat.customEmoji = EMPTY_EMOJI) ∧
    ((disconnectW w n).1.chat.roles = EMPTY_ROLES) ∧
    ((disconnectW w n).1.chat.categories = EMPTY_CATEGORIES) ∧
    ((disconnectW w n).1.chat.presences = EMPTY_PRESENCES) ∧
    ((disconnectW w n).1.chat.userProfiles = EMPTY_PROFILES) ∧
    ((disconnectW w n).1.chat.pinnedMessages = EMPTY_PINS) ∧
    ((disconnectW w n).1.chat.threads = EMPTY_THREADS) ∧
    ((disconnectW w n).1.chat.forumTags = EMPTY_FORUM_TAGS) ∧
    ((disconnectW w n).1.chat.bookmarks = EMPTY_BOOKMARKS) ∧
    ((disconnectW w n).1.chat.invites = EMPTY_INVITES) ∧
    ((disconnectW w n).1.chat.serverEvents = EMPTY_EVENTS) ∧
    ((disconnectW w n).1.chat.communitySettings = EMPTY_COMMUNITY) ∧
    ((disconnectW w n).1.chat.discoverableServers = EMPTY_DISCOVER) ∧
    ((disconnectW w n).1.chat.templates = EMPTY_TEMPLATES) ∧
    ((disconnectW w n).1.chat.auditLog.val = [] ∧ (disconnectW w n).1.chat.auditLog.id = n) ∧
    ((disconnectW w n).1.chat.bans.val = [] ∧ (disconnectW w n).1.chat.bans.id = n + 1) ∧
    ((disconnectW w n).1.chat.automodRules.val = [] ∧
      (disconnectW w n).1.chat.automodRules.id = n + 2) ∧
    ((disconnectW w n).1.chat.connected = false) ∧
    ((disconnectW w n).1.chat.ws = false) ∧
    ((disconnectW w n).1.chat.replyingTo = none) ∧
    ((disconnectW w n).1.chat.searchResults = none) ∧
    ((disconnectW w n).1.chat.searchQuery = "") ∧
    ((disconnectW w n).1.chat.searchTotalCount = 0) ∧
    ((disconnectW w n).1.chat.nickname = w.chat.nickname) ∧
    ((disconnectW w n).1.ui = w.ui) ∧
    ((disconnectW w n).1.storage = w.storage) := by
  simp [disconnectW, disconnectI]

/-- C6 counterexample: the claim says every listed map is reset to its
per-type constant empty sentinel.  For `auditLog` (likewise `bans` and
`automodRules`) there is no such constant: every `disconnect` call
allocates a fresh `{}` literal, so two calls yield empty containers with
different identities, unlike `servers`, which twice receives the identical
`EMPTY_SERVERS` sentinel. -/
theorem disconnect_allocates_fresh_moderation_maps :
    (disconnectI (initialChatStateI firstDynamicId).1
      (initialChatStateI firstDynamicId).2).1.auditLog.val = [] ∧
    (disconnectI (disconnectI (initialChatStateI firstDynamicId).1
        (initialChatStateI firstDynamicId).2).1
      (disconnectI (initialChatStateI firstDynamicId).1
        (initialChatStateI firstDynamicId).2).2).1.auditLog.val = [] ∧
    (disconnectI (initialChatStateI firstDynamicId).1
        (initialChatStateI firstDynamicId).2).1.auditLog.id ≠
      (initialChatStateI firstDynamicId).1.auditLog.id ∧
    (disconnectI (disconnectI (initialChatStateI firstDynamicId).1
          (initialChatStateI firstDynamicId).2).1
        (disconnectI (initialChatStateI firstDynamicId).1
          (initialChatStateI firstDynamicId).2).2).1.auditLog.id ≠
      (disconnectI (initialChatStateI firstDynamicId).1
        (initialChatStateI firstDynamicId).2).1.auditLog.id ∧
    (disconnectI (initialChatStateI firstDynamicId).1
        (initialChatStateI firstDynamicId).2).1.servers = EMPTY_SERVERS ∧
    (disconnectI (disconnectI (initialChatStateI firstDynamicId).1
          (initialChatStateI firstDynamicId).2).1
        (disconnectI (initialChatStateI firstDynamicId).1
          (initialChatStateI firstDynamicId).2).2).1.servers = EMPTY_SERVERS := by
  refine ⟨rfl, rfl, by decide, by decide, rfl, rfl⟩

/-- A concrete identity-instrumented store: `nickname = "alice"`, one unread
entry whose container was allocated with identity 50. -/
def c8State : ChatStateI :=
  { (initialChatStateI firstDynamicId).1 with
      nickname := some "alice", unreadCounts := ⟨50, [("srv1:#g", 1)]⟩ }

/-- C8 (amended): the `message` reducer keeps referential identity for
every store field other than `messages`, `avatars`, `unreadCounts`; for
the message arrays of every channel key other than the event's; and for
`avatars` whenever nothing is cached.  But it always replaces
`unreadCounts` with a freshly allocated shallow copy — even when the
event's sender is the own nickname, in which case the copy is value-equal
(its per-key number entries are unchanged, so only selectors on the map
object itself spuriously invalidate). -/
theorem message_reducer_identity_spec (s : ChatStateI) (n : Nat) (id : String)
    (server_id : Option String) (from_ target content timestamp : String)
    (avatar_url : Option String) (reply_to : Option ReplyInfo)
    (attachments : Option (List AttachmentInfo)) :
    (((handleMessageI id server_id from_ target content timestamp avatar_url reply_to
        attachments s n).1.connected = s.connected) ∧
      ((handleMessageI id server_id from_ target content timestamp avatar_url reply_to
        attachments s n).1.nickname = s.nickname) ∧
      ((handleMessageI id server_id from_ target content timestamp avatar_url reply_to
        attachments s n).1.servers = s.servers) ∧
      ((handleMessageI id server_id from_ target content timestamp avatar_url reply_to
        attachments s n).1.channels = s.channels) ∧
      ((handleMessageI id server_id from_ target content timestamp avatar_url reply_to
        attachments s n).1.members = s.members) ∧
      ((handleMessageI id server_id from_ target content timestamp avatar_url reply_to
        attachments s n).1.hasMore = s.hasMore) ∧
      ((handleMessageI id server_id from_ target content timestamp avatar_url reply_to
        attachments s n).1.typingUsers = s.typingUsers) ∧
      ((handleMessageI id server_id from_ target content timestamp avatar_url reply_to
        attachments s n).1.replyingTo = s.replyingTo) ∧
      ((handleMessageI id server_id from_ target content timestamp avatar_url reply_to
        attachments s n).1.customEmoji = s.customEmoji) ∧
      ((handleMessageI id server_id from_ target content timestamp avatar_url reply_to
        attachments s n).1.roles = s.roles) ∧
      ((handleMessageI id server_id from_ target content timestamp avatar_url reply_to
        attachments s n).1.categories = s.categories) ∧
      ((handleMessageI id server_id from_ target content timestamp avatar_url reply_to
        attachments s n).1.presences = s.presences) ∧
      ((handleMessageI id server_id from_ target content timestamp avatar_url reply_to
        attachments s n).1.userProfiles = s.userProfiles) ∧
      ((handleMessageI id server_id from_ target content timestamp avatar_url reply_to
        attachments s n).1.searchResults = s.searchResults) ∧
      ((handleMessageI id server_id from_ target content timestamp avatar_url reply_to
        attachments s n).1.searchQuery = s.searchQuery) ∧
      ((handleMessageI id server_id from_ target content timestamp avatar_url reply_to
        attachments s n).1.searchTotalCount = s.searchTotalCount) ∧
      ((handleMessageI id server_id from_ target content timestamp avatar_url reply_to
        attachments s n).1.pinnedMessages = s.pinnedMessages) ∧
      ((handleMessageI id server_id from_ target content timestamp avatar_url reply_to
        attachments s n).1.threads = s.threads) ∧
      ((handleMessageI id server_id from_ target content timestamp avatar_url reply_to
        attachments s n).1.forumTags = s.forumTags) ∧
      ((handleMessageI id server_id from_ target content timestamp avatar_url reply_to
        attachments s n).1.bookmarks = s.bookmarks) ∧
      ((handleMessageI id server_id from_ target content timestamp avatar_url reply_to
        attachments s n).1.auditLog = s.auditLog) ∧
      ((handleMessageI id server_id from_ target content timestamp avatar_url reply_to
        attachments s n).1.bans = s.bans) ∧
      ((handleMessageI id server_id from_ target content timestamp avatar_url reply_to
        attachments s n).1.automodRules = s.automodRules) ∧
      ((handleMessageI id server_id from_ target content timestamp avatar_url reply_to
        attachments s n).1.invites = s.invites) ∧
      ((handleMessageI id server_id from_ target content timestamp avatar_url reply_to
        attachments s n).1.serverEvents = s.serverEvents) ∧
      ((handleMessageI id server_id from_ target content timestamp avatar_url reply_to
        attachments s n).1.communitySettings = s.communitySettings) ∧
      ((handleMessageI id server_id from_ target content timestamp avatar_url reply_to
        attachments s n).1.discoverableServers = s.discoverableServers) ∧
      ((handleMessageI id server_id from_ target content timestamp avatar_url reply_to
        attachments s n).1.templates = s.templates) ∧
      ((handleMessageI id server_id from_ target content timestamp avatar_url reply_to
        attachments s n).1.ws = s.ws)) ∧
    (∀ k, k ≠ channelKey (messageSid server_id) target →
      (handleMessageI id server_id from_ target content timestamp avatar_url reply_to
        attachments s n).1.messages.val.get? k = s.messages.val.get? k) ∧
    (avatar_url = none →
      (handleMessageI id server_id from_ target content timestamp avatar_url reply_to
        attachments s n).1.avatars = s.avatars) ∧
    (∀ url, avatar_url = some url → (url = "" ∨ s.avatars.val.get? from_ = some url) →
      (handleMessageI id server_id from_ target content timestamp avatar_url reply_to
        attachments s n).1.avatars = s.avatars) ∧
    ((handleMessageI id server_id from_ target content timestamp avatar_url reply_to
      attachments s n).1.unreadCounts.id = n) ∧
    (s.nickname = some from_ →
      (handleMessageI id server_id from_ target content timestamp avatar_url reply_to
        attachments s n).1.unreadCounts.val = s.unreadCounts.val) := by
  refine ⟨⟨rfl, rfl, rfl, rfl, rfl, rfl, rfl, rfl, rfl, rfl, rfl, rfl, rfl, rfl, rfl, rfl,
    rfl, rfl, rfl, rfl, rfl, rfl, rfl, rfl, rfl, rfl, rfl, rfl, rfl⟩, ?_, ?_, ?_, rfl, ?_⟩
  · intro k hk
    simp [handleMessageI, SMap.get?_set_other _ _ _ _ hk]
  · intro h
    subst h
    rfl
  · intro url hurl hcase
    subst hurl
    rcases hcase with h | h
    · simp [handleMessageI, cacheAvatarI, h]
    · simp [handleMessageI, cacheAvatarI, h]
  · intro h
    simp [handleMessageI, h]

/-- Witness for `message_reducer_identity_spec` at a concrete store and an
own-nickname message. -/
theorem message_reducer_identity_spec_witness :
    (handleMessageI "m1" (some "srv1") "alice" "#g" "hi" "t" none none none
      c8State 100).1.unreadCounts.val = c8State.unreadCounts.val :=
  (message_reducer_identity_spec c8State 100 "m1" (some "srv1") "alice" "#g" "hi" "t"
    none none none).2.2.2.2.2 rfl

/-- C8 counterexample: a `message` event whose sender is the own nickname
does not leave `unreadCounts` identical — the reducer installs a fresh
spread copy (new identity 100, not the previous identity 50) that is
merely value-equal. -/
theorem own_message_replaces_unreadCounts_reference :
    (handleMessageI "m1" (some "srv1") "alice" "#g" "hi" "t" none none none
      c8State 100).1.unreadCounts.id ≠ c8State.unreadCounts.id ∧
    (handleMessageI "m1" (some "srv1") "alice" "#g" "hi" "t" none none none
      c8State 100).1.unreadCounts.val = c8State.unreadCounts.val := by
  refine ⟨by decide, rfl⟩

/-- A sample server folder. -/
def fSample : ServerFolder :=
  { id := "f1", name := "work", serverIds := ["srv1"], collapsed := false }

/-- C9 (amended): every folder mutation (`setServerFolders`,
`addServerFolder`, `removeServerFolder`, `toggleServerFolder`) writes the
new folder list to durable storage under `concord:server-folders` and
updates the in-memory state to the same list; on store init a failed or
unparseable read falls back to the empty list.  However, a storage WRITE
failure is not swallowed: the save runs before (or inside) the state
update, so the exception aborts the mutation and the in-memory state does
not change. -/
theorem folder_persistence_spec (ui : UiState) (st : Storage)
    (folders : List ServerFolder) (name uuid folderId : String)
    (serverIds : List String) (hw : st.writeOk = true) :
    (setServerFolders ui st folders =
      .ok ({ ui with serverFolders := folders },
        { st with slots := st.slots.set FOLDERS_KEY (.folders folders) })) ∧
    (addServerFolder ui st name serverIds uuid =
      .ok ({ ui with serverFolders := ui.serverFolders ++ [{ id := uuid, name := name, serverIds := serverIds, collapsed := false }] },
        { st with slots := st.slots.set FOLDERS_KEY (.folders (ui.serverFolders ++ [{ id := uuid, name := name, serverIds := serverIds, collapsed := false }])) })) ∧
    (removeServerFolder ui st folderId =
      .ok ({ ui with serverFolders := ui.serverFolders.filter (fun f => f.id ≠ folderId) },
        { st with slots := st.slots.set FOLDERS_KEY (.folders (ui.serverFolders.filter (fun f => f.id ≠ folderId))) })) ∧
    (toggleServerFolder ui st folderId =
      .ok ({ ui with serverFolders := ui.serverFolders.map (fun f => if f.id = folderId then { f with collapsed := ¬ f.collapsed } else f) },
        { st with slots := st.slots.set FOLDERS_KEY (.folders (ui.serverFolders.map (fun f => if f.id = folderId then { f with collapsed := ¬ f.collapsed } else f))) })) ∧
    (∀ st' : Storage, st'.readOk = false → (initialUiState st').serverFolders = []) ∧
    (∀ st' : Storage, st'.slots.get? FOLDERS_KEY = some .corrupt →
      (initialUiState st').serverFolders = []) ∧
    (st.writeOk = false → setServerFolders ui st folders = .error ()) := by
  refine ⟨?_, ?_, ?_, ?_, ?_, ?_, ?_⟩
  · simp [setServerFolders, saveFolders, hw]
  · simp [addServerFolder, saveFolders, hw]
  · simp [removeServerFolder, saveFolders, hw]
  · simp [toggleServerFolder, saveFolders, hw]
  · intro st' hr
    simp [initialUiState, loadFolders, hr]
  · intro st' hc
    cases hro : st'.readOk
    · simp [initialUiState, loadFolders, hro]
    · simp [initialUiState, loadFolders, hro, hc]
  · intro hw'
    rw [hw] at hw'
    cases hw'

/-- Witness for `folder_persistence_spec`: a working storage persists a
folder list under the key and mirrors it in memory. -/
theorem folder_persistence_spec_witness :
    setServerFolders (initialUiState ⟨true, true, []⟩) ⟨true, true, []⟩ [fSample] =
      .ok ({ initialUiState ⟨true, true, []⟩ with serverFolders := [fSample] },
        ⟨true, true, [(FOLDERS_KEY, .folders [fSample])]⟩) := by
  have h := (folder_persistence_spec (initialUiState ⟨true, true, []⟩) ⟨true, true, []⟩
    [fSample] "work" "f1" "f1" ["srv1"] rfl).1
  exact h.trans rfl

/-- C9 counterexample: with `setItem` failing (`writeOk = false`) the
mutation is not swallowed — `setServerFolders` and `addServerFolder`
propagate the exception before `set` runs, so the in-memory folder state
does not reflect the mutation. -/
theorem folder_write_failure_aborts_mutation :
    setServerFolders (initialUiState ⟨true, false, []⟩) ⟨true, false, []⟩ [fSample] =
      .error () ∧
    addServerFolder (initialUiState ⟨true, false, []⟩) ⟨true, false, []⟩ "work" ["srv1"]
      "f1" = .error () := ⟨rfl, rfl⟩

/-! ## The reaction-group invariant (spec §3 invariant 1, §8 property 1) -/

/-- A well-formed reaction group: `count = |user_ids|` and the count is
positive. -/
def goodGroup (r : ReactionGroup) : Prop :=
  r.count = (r.user_ids.length : Int) ∧ 0 < r.count

instance : DecidablePred goodGroup := fun r =>
  decidable_of_iff (r.count = (r.user_ids.length : Int) ∧ 0 < r.count) Iff.rfl

/-- All reaction groups on a message are well-formed. -/
def msgGroupsOk (m : HistoryMessage) : Prop :=
  ∀ r ∈ m.reactions.getD [], goodGroup r

instance : DecidablePred msgGroupsOk := fun m =>
  decidable_of_iff (∀ r ∈ m.reactions.getD [], goodGroup r) Iff.rfl

/-- All messages of a list carry only well-formed reaction groups. -/
def messagesOk (l : List HistoryMessage) : Prop :=
  ∀ m ∈ l, msgGroupsOk m

instance : DecidablePred messagesOk := fun l =>
  decidable_of_iff (∀ m ∈ l, msgGroupsOk m) Iff.rfl

/-- Every reaction group on any message anywhere in the store is
well-formed. -/
def storeGroupsOk (s : ChatState) : Prop :=
  ∀ p ∈ s.messages, messagesOk p.2

instance : DecidablePred storeGroupsOk := fun s =>
  decidable_of_iff (∀ p ∈ s.messages, messagesOk p.2) Iff.rfl

theorem smap_get?_mem {α : Type} (m : SMap α) (k : String) (v : α)
    (h : m.get? k = some v) : (k, v) ∈ m := by
  induction m with
  | nil => simp [SMap.get?] at h
  | cons hd tl ih =>
    by_cases hk : hd.1 = k
    · simp only [SMap.get?, if_pos hk] at h
      have : (k, v) = hd := by
        cases hd
        simp_all
      exact this ▸ List.mem_cons_self _ _
    · simp only [SMap.get?, if_neg hk] at h
      exact List.mem_cons_of_mem _ (ih h)

/-- `∀`-over-values is preserved by `SMap.set` when the new value satisfies
the predicate. -/
theorem smapAll_set {α : Type} (P : α → Prop) (m : SMap α) (k : String) (v : α)
    (hm : ∀ p ∈ m, P p.2) (hv : P v) : ∀ p ∈ SMap.set m k v, P p.2 := by
  intro p hp
  rcases SMap.mem_set m k v p hp with h | h
  · rw [h]
    exact hv
  · exact hm p h

theorem messagesOk_getD {s : ChatState} (hs : storeGroupsOk s) (k : String) :
    messagesOk ((s.messages.get? k).getD []) := by
  cases h : s.messages.get? k with
  | none => intro m hm; simp at hm
  | some l =>
    have := hs (k, l) (smap_get?_mem _ _ _ h)
    simpa using this

theorem goodGroup_bump (uid : String) (r : ReactionGroup) (h : goodGroup r) :
    goodGroup (bumpGroup uid r) := by
  unfold bumpGroup
  split
  · exact h
  · constructor
    · simp
    · simp

theorem addReactionToList_ok (emoji uid : String) (gs : List ReactionGroup)
    (h : ∀ r ∈ gs, goodGroup r) :
    ∀ r ∈ addReactionToList emoji uid gs, goodGroup r := by
  induction gs with
  | nil =>
    intro r hr
    simp [addReactionToList] at hr
    subst hr
    exact ⟨rfl, by norm_num⟩
  | cons g rest ih =>
    intro r hr
    by_cases he : g.emoji = emoji
    · simp only [addReactionToList, if_pos he] at hr
      rcases List.mem_cons.mp hr with h1 | h2
      · exact h1 ▸ goodGroup_bump uid g (h g (List.mem_cons_self _ _))
      · exact h r (List.mem_cons_of_mem _ h2)
    · simp only [addReactionToList, if_neg he] at hr
      rcases List.mem_cons.mp hr with h1 | h2
      · exact h1 ▸ h g (List.mem_cons_self _ _)
      · exact ih (fun r' hr' => h r' (List.mem_cons_of_mem _ hr')) r h2

theorem removeReactionFromList_ok (emoji uid : String) (gs : List ReactionGroup)
    (h : ∀ r ∈ gs, goodGroup r) :
    ∀ r ∈ removeReactionFromList emoji uid gs, goodGroup r := by
  intro r hr
  unfold removeReactionFromList at hr
  have hpos : 0 < r.count := by
    have := List.of_mem_filter hr
    simpa using this
  have hmem := List.mem_of_mem_filter hr
  rcases List.mem_map.mp hmem with ⟨r0, hr0, heq⟩
  by_cases he : r0.emoji = emoji
  · rw [if_pos he] at heq
    refine ⟨?_, hpos⟩
    rw [← heq]
  · rw [if_neg he] at heq
    exact heq ▸ h r0 hr0

/-- Constraint a claim places on an event list: messages delivered by
`history` events carry only well-formed reaction groups (the wire schema's
own reading of a reaction group). -/
def histOkIn (evs : List ServerEvent) : Prop :=
  ∀ sid ch msgs hm, ServerEvent.history sid ch msgs hm ∈ evs → messagesOk msgs

theorem handleEvent_preserves_storeGroupsOk (ev : ServerEvent) (s : ChatState)
    (hs : storeGroupsOk s)
    (hev : ∀ sid ch msgs hm, ev = ServerEvent.history sid ch msgs hm → messagesOk msgs) :
    storeGroupsOk (handleEvent ev s).1 := by
  cases ev with
  | message id server_id from_ target content timestamp avatar_url reply_to attachments =>
    intro p hp
    refine smapAll_set messagesOk s.messages _ _ hs ?_ p hp
    intro m hm
    rcases List.mem_append.mp hm with h1 | h2
    · exact messagesOk_getD hs _ m h1
    · rcases List.mem_singleton.mp h2 with rfl
      intro r hr
      simp at hr
  | message_edit id server_id channel content edited_at =>
    intro p hp
    refine smapAll_set messagesOk s.messages _ _ hs ?_ p hp
    intro m hm
    rcases List.mem_map.mp hm with ⟨m0, hm0, rfl⟩
    have h0 := messagesOk_getD hs (channelKey server_id channel) m0 hm0
    by_cases hid : m0.id = id
    · rw [if_pos hid]
      intro r hr
      exact h0 r (by simpa using hr)
    · rw [if_neg hid]
      exact h0
  | message_delete id server_id channel =>
    intro p hp
    refine smapAll_set messagesOk s.messages _ _ hs ?_ p hp
    intro m hm
    exact messagesOk_getD hs (channelKey server_id channel) m (List.mem_of_mem_filter hm)
  | message_embed message_id server_id channel embeds =>
    intro p hp
    refine smapAll_set messagesOk s.messages _ _ hs ?_ p hp
    intro m hm
    rcases List.mem_map.mp hm with ⟨m0, hm0, rfl⟩
    have h0 := messagesOk_getD hs (channelKey server_id channel) m0 hm0
    by_cases hid : m0.id = message_id
    · rw [if_pos hid]
      intro r hr
      exact h0 r (by simpa using hr)
    · rw [if_neg hid]
      exact h0
  | reaction_add message_id server_id channel user_id nickname emoji =>
    intro p hp
    refine smapAll_set messagesOk s.messages _ _ hs ?_ p hp
    intro m hm
    rcases List.mem_map.mp hm with ⟨m0, hm0, rfl⟩
    have h0 := messagesOk_getD hs (channelKey server_id channel) m0 hm0
    by_cases hid : m0.id ≠ message_id
    · rw [if_pos hid]
      exact h0
    · rw [if_neg hid]
      intro r hr
      simp only [Option.getD_some] at hr
      exact addReactionToList_ok emoji user_id _ h0 r (by simpa using hr)
  | reaction_remove message_id server_id channel user_id nickname emoji =>
    intro p hp
    refine smapAll_set messagesOk s.messages _ _ hs ?_ p hp
    intro m hm
    rcases List.mem_map.mp hm with ⟨m0, hm0, rfl⟩
    have h0 := messagesOk_getD hs (channelKey server_id channel) m0 hm0
    by_cases hid : m0.id ≠ message_id
    · rw [if_pos hid]
      exact h0
    · rw [if_neg hid]
      intro r hr
      exact removeReactionFromList_ok emoji user_id _ h0 r (by simpa using hr)
  | join nickname server_id channel avatar_url =>
    simp only [handleEvent]
    split
    · exact hs
    · exact hs
  | part nickname server_id channel reason => exact hs
  | quit nickname reason => exact hs
  | names server_id channel members => exact hs
  | topic_change server_id channel set_by topic =>
    simp only [handleEvent]
    cases s.channels.get? server_id with
    | none => exact hs
    | some chs => exact hs
  | channel_list server_id channels => exact hs
  | history server_id channel messages has_more =>
    intro p hp
    refine smapAll_set messagesOk s.messages _ _ hs ?_ p hp
    intro m hm
    rcases List.mem_append.mp hm with h1 | h2
    · exact hev server_id channel messages has_more rfl m (List.mem_reverse.mp h1)
    · exact messagesOk_getD hs (channelKey server_id channel) m h2
  | server_list servers => exact hs
  | unread_counts server_id counts => exact hs
  | bulk_message_delete server_id channel message_ids =>
    intro p hp
    refine smapAll_set messagesOk s.messages _ _ hs ?_ p hp
    intro m hm
    exact messagesOk_getD hs (channelKey server_id channel) m (List.mem_of_mem_filter hm)
  | error code message => exact hs

theorem applyEvents_preserves_storeGroupsOk (evs : List ServerEvent) (s : ChatState)
    (hs : storeGroupsOk s) (h : histOkIn evs) :
    storeGroupsOk (applyEvents s evs) := by
  induction evs generalizing s with
  | nil => exact hs
  | cons e rest ih =>
    have hstep := handleEvent_preserves_storeGroupsOk e s hs
      (fun sid ch msgs hm heq => h sid ch msgs hm (heq ▸ List.mem_cons_self _ _))
    exact ih _ hstep (fun sid ch msgs hm hmem => h sid ch msgs hm (List.mem_cons_of_mem _ hmem))

/-- C1 (amended): for every sequence of server events whose `history`
payloads carry only well-formed reaction groups, every reaction group on
any message in the resulting store satisfies `count = |user_ids|` and
`count > 0` (a `reaction_remove` that empties a group deletes the group; a
`reaction_add` for a user already in the group changes nothing).  The
proviso is forced: the `history` reducer stores server-sent groups
verbatim. -/
theorem reactionGroups_ok_of_wellformed_history (evs : List ServerEvent)
    (h : histOkIn evs) : storeGroupsOk (applyEvents initialChatState evs) :=
  applyEvents_preserves_storeGroupsOk evs initialChatState
    (fun p hp => absurd hp (List.not_mem_nil p)) h

/-- Witness for `reactionGroups_ok_of_wellformed_history` on a concrete
reaction lifecycle (message, add, add same user again, remove). -/
theorem reactionGroups_ok_witness :
    storeGroupsOk (applyEvents initialChatState
      [.message "m1" (some "srv1") "bob" "#g" "yo" "t" none none none,
       .reaction_add "m1" "srv1" "#g" "u1" "bob" "up",
       .reaction_add "m1" "srv1" "#g" "u1" "bob" "up",
       .reaction_remove "m1" "srv1" "#g" "u1" "bob" "up"]) := by
  apply reactionGroups_ok_of_wellformed_history
  intro sid ch msgs hm hmem
  simp at hmem

/-- C1 counterexample: a single `history` event whose message carries the
malformed group `{emoji := "x", count := 5, user_ids := []}` is stored
verbatim, so the resulting store violates `count = |user_ids| > 0`. -/
theorem reactionGroups_violated_by_history :
    ¬ storeGroupsOk (applyEvents initialChatState
      [.history "srv1" "#g"
        [{ id := "m1", from_ := "bob", content := "x", timestamp := "t",
           reactions := some [{ emoji := "x", count := 5, user_ids := [] }] }] false]) := by
  decide

/-! ## The unread-count representation invariant (spec §3 invariant 4) -/

/-- Every entry of `unreadCounts` is positive (zero is represented by key
absence). -/
def unreadPos (s : ChatState) : Prop :=
  ∀ p ∈ s.unreadCounts, 0 < p.2

instance : DecidablePred unreadPos := fun s =>
  decidable_of_iff (∀ p ∈ s.unreadCounts, 0 < p.2) Iff.rfl

/-- Constraint on a step list: every `unread_counts` event in it carries
only positive counts. -/
def unreadOkIn (steps : List Step) : Prop :=
  ∀ sid counts, Step.ev (ServerEvent.unread_counts sid counts) ∈ steps →
    ∀ c ∈ counts, 0 < c.count

theorem unread_counts_foldl_pos (sid : String) (counts : List UnreadCount) (m : SMap Int)
    (hm : ∀ p ∈ m, 0 < p.2) (hc : ∀ c ∈ counts, 0 < c.count) :
    ∀ p ∈ counts.foldl (fun m c => m.set (channelKey sid c.channel_name) c.count) m,
      0 < p.2 := by
  induction counts generalizing m with
  | nil => exact hm
  | cons c rest ih =>
    simp only [List.foldl_cons]
    exact ih _ (smapAll_set _ m _ _ hm (hc c (List.mem_cons_self _ _)))
      (fun c' h' => hc c' (List.mem_cons_of_mem _ h'))

theorem applyStep_preserves_unreadPos (st : Step) (s : ChatState) (hs : unreadPos s)
    (hc : ∀ sid counts, st = Step.ev (ServerEvent.unread_counts sid counts) →
      ∀ c ∈ counts, 0 < c.count) :
    unreadPos (applyStep s st) := by
  cases st with
  | ev e =>
    cases e with
    | message id server_id from_ target content timestamp avatar_url reply_to attachments =>
      by_cases hn : s.nickname ≠ some from_
      · intro p hp
        simp only [applyStep, handleEvent, if_pos hn] at hp
        refine smapAll_set (fun v => 0 < v) s.unreadCounts _ _ hs ?_ p hp
        cases hget : s.unreadCounts.get? (channelKey (messageSid server_id) target) with
        | none => simp
        | some v =>
          have hv := hs _ (smap_get?_mem _ _ _ hget)
          simp only [Option.getD_some]
          omega
      · intro p hp
        simp only [applyStep, handleEvent, if_neg hn] at hp
        exact hs p hp
    | message_edit id server_id channel content edited_at => exact hs
    | message_delete id server_id channel => exact hs
    | message_embed message_id server_id channel embeds => exact hs
    | reaction_add message_id server_id channel user_id nickname emoji => exact hs
    | reaction_remove message_id server_id channel user_id nickname emoji => exact hs
    | join nickname server_id channel avatar_url =>
      simp only [applyStep, handleEvent]
      split
      · exact hs
      · exact hs
    | part nickname server_id channel reason => exact hs
    | quit nickname reason => exact hs
    | names server_id channel members => exact hs
    | topic_change server_id channel set_by topic =>
      simp only [applyStep, handleEvent]
      cases s.channels.get? server_id with
      | none => exact hs
      | some chs => exact hs
    | channel_list server_id channels => exact hs
    | history server_id channel messages has_more => exact hs
    | server_list servers => exact hs
    | unread_counts server_id counts =>
      intro p hp
      simp only [applyStep, handleEvent] at hp
      exact unread_counts_foldl_pos server_id counts s.unreadCounts hs
        (hc server_id counts rfl) p hp
    | bulk_message_delete server_id channel message_ids => exact hs
    | error code message => exact hs
  | connect n =>
    simp only [applyStep, connectState]
    split
    · exact hs
    · exact hs
  | setConn b => exact hs
  | disconnect =>
    intro p hp
    simp [applyStep, disconnectState] at hp
  | sendMsg sid ch c a u t =>
    cases hws : s.ws with
    | false =>
      simp only [applyStep, sendMessage, hws]
      exact hs
    | true =>
      cases hn : s.nickname with
      | none =>
        simp only [applyStep, sendMessage, hws, hn]
        exact hs
      | some nick =>
        simp only [applyStep, sendMessage, hws, hn]
        split
        · exact hs
        · exact hs
  | markRead sid ch mid =>
    intro p hp
    simp only [applyStep, markRead] at hp
    exact hs p (SMap.mem_del _ _ p hp)
  | setReply r => exact hs

theorem applySteps_preserves_unreadPos (steps : List Step) (s : ChatState)
    (hs : unreadPos s) (h : unreadOkIn steps) :
    unreadPos (applySteps s steps) := by
  induction steps generalizing s with
  | nil => exact hs
  | cons st rest ih =>
    have hstep := applyStep_preserves_unreadPos st s hs
      (fun sid counts heq => h sid counts (heq ▸ List.mem_cons_self _ _))
    exact ih _ hstep (fun sid counts hmem => h sid counts (List.mem_cons_of_mem _ hmem))

/-- C7 (amended): in every store state reachable from the initial store by
server events and local actions in which every `unread_counts` event
carries only positive counts, `unreadCounts` never maps a key to 0: every
present entry is positive (`markRead` deletes the key; a fresh key
increments from 0).  The proviso is forced: the `unread_counts` reducer
stores the server-sent count verbatim, including 0. -/
theorem unreadCounts_never_zero_of_positive_counts (steps : List Step)
    (h : unreadOkIn steps) :
    unreadPos (applySteps initialChatState steps) ∧
    ∀ k, (applySteps initialChatState steps).unreadCounts.get? k ≠ some (0 : Int) := by
  have hpos := applySteps_preserves_unreadPos steps initialChatState
    (fun p hp => absurd hp (List.not_mem_nil p)) h
  refine ⟨hpos, ?_⟩
  intro k hk
  have := hpos _ (smap_get?_mem _ _ _ hk)
  simp at this

/-- Witness for `unreadCounts_never_zero_of_positive_counts` on a concrete
run: connect, receive a message from another user, mark the channel
read. -/
theorem unreadCounts_never_zero_witness :
    unreadPos (applySteps initialChatState
      [.connect "alice", .setConn true,
       .ev (.message "m1" (some "srv1") "bob" "#g" "yo" "t" none none none),
       .markRead "srv1" "#g" "m1"]) := by
  have h := unreadCounts_never_zero_of_positive_counts
    [.connect "alice", .setConn true,
     .ev (.message "m1" (some "srv1") "bob" "#g" "yo" "t" none none none),
     .markRead "srv1" "#g" "m1"]
    (by intro sid counts hmem; simp at hmem)
  exact h.1

/-- C7 counterexample: the `unread_counts` reducer stores a server-sent
count of 0 verbatim, so a reachable state maps "srv1:#g" to 0 instead of
deleting the key. -/
theorem unread_counts_event_stores_zero :
    (applySteps initialChatState
      [.ev (.unread_counts "srv1" [{ channel_name := "#g", count := 0 }])]).unreadCounts.get?
      "srv1:#g" = some 0 := by
  decide

end Concord
